import Mathlib

/-!
Verification of the provider-normalization layer and tool-calling dispatch
loop of the Tome application, as a shallow embedding in Lean 4.

The embedding follows the TypeScript source:
* `src/lib/engines/types.ts` — canonical `Message`, `ToolCall`, `Tool` types;
* `src/lib/engines/anthropic/client.ts` — the Anthropic adapter
  (constructor, `chat` request construction, `connected`, `clamp`);
* `src/lib/engines/anthropic/message.ts` — canonical → Anthropic message
  translation (`toAnthropic`, `assistant`, `toolResponse`);
* `src/lib/engines/anthropic/tool.ts` — `toAnthropicTools` / `normalize`;
* `src/lib/engines/gemini/tool.ts` — `fromOne` / `toGeminiType`;
* `src/lib/models/engine.svelte.ts` — `Engine.fromSql`, `Engine.client`,
  `AVAILABLE_MODELS`;
* `src/lib/dispatch.ts` — the dispatch loop.

JavaScript `string | undefined` is embedded as `Option String`; JS truthiness
of a string (`if (s)`, `s || d`, `s ??= d`) is made explicit as emptiness
tests; numbers that the claims reason about are embedded as `ℚ` (temperature)
or `ℕ` (token counts, ids); promise-returning externals (the SDK network call,
the Tauri `call_mcp_tool` command, `Session.find`) are passed in as explicit
oracle functions, with `Except` for calls that may reject.
-/

namespace Tome

/-- The `Role` union of `src/lib/engines/types.ts`:
`system | user | assistant | tool | function | developer | model`. -/
inductive Role where
  | system
  | user
  | assistant
  | tool
  | function
  | developer
  | model
  deriving DecidableEq, Repr

/-- `ToolCall.function` of `types.ts`: a tool name plus a structured
arguments mapping (embedded as an association list of string pairs — the
adapters treat the mapping as opaque). -/
structure ToolFunction where
  name : String
  arguments : List (String × String)
  deriving DecidableEq, Repr

/-- `ToolCall` of `types.ts`; the id is optional (`id?: string`). -/
structure ToolCall where
  id : Option String := none
  function : ToolFunction
  deriving DecidableEq, Repr

/-- The canonical Tome `Message` (ORM model): role, text content, optional
extracted reasoning, tool calls, the answered tool-call id for `tool`
messages, and provenance fields. -/
structure Message where
  role : Role
  content : String := ""
  thought : Option String := none
  toolCalls : List ToolCall := []
  toolCallId : Option String := none
  sessionId : Option Nat := none
  engineId : Option Nat := none
  model : Option String := none
  deriving DecidableEq, Repr

/-- `Property` of `types.ts` (`{type, description}`); the `type` is embedded
as `Option String` because tool schemas arrive as unvalidated JSON from MCP
servers and the Gemini translation explicitly guards against an absent
`type` (`prop.type && !prop.anyOf`); `anyOf` records the presence of an
`anyOf` key on the raw property. -/
structure Property where
  type : Option String := none
  description : String := ""
  anyOf : Bool := false
  deriving DecidableEq, Repr

/-- `Tool.function.parameters` of `types.ts`: a JSON-Schema-like object.
The properties record is embedded as an association list (name → Property),
preserving key order. -/
structure ToolParameters where
  type : String
  required : List String
  properties : List (String × Property)
  deriving DecidableEq, Repr

/-- `Tool.function` of `types.ts`. -/
structure ToolFunctionDef where
  name : String
  description : String
  parameters : ToolParameters
  deriving DecidableEq, Repr

/-- Canonical `Tool` of `types.ts`; the constant discriminator
`type: 'function'` is omitted from the embedding. -/
structure Tool where
  function : ToolFunctionDef
  deriving DecidableEq, Repr

/-- `Options` of `types.ts` (per-session model invocation options). -/
structure Options where
  num_ctx : Option Nat := none
  temperature : Option ℚ := none
  deriving DecidableEq, Repr

/-- `ClientProps` of `types.ts`: credential, endpoint, owning engine id. -/
structure ClientProps where
  apiKey : String
  url : String
  engineId : Nat
  deriving DecidableEq, Repr

/-- The only part of a Model's opaque metadata the Anthropic adapter reads:
`metadata?.limits?.max_output_tokens`. -/
structure Limits where
  max_output_tokens : Option Nat := none
  deriving DecidableEq, Repr

/-- Opaque model metadata, restricted to the fields the embedded code
consults. -/
structure Metadata where
  limits : Option Limits := none
  deriving DecidableEq, Repr

/-- The Tome `Model` record (`src/lib/models/model.svelte.ts`), restricted to
the fields the adapters and the dispatch loop read. -/
structure Model where
  id : String
  name : String
  metadata : Option Metadata := none
  engineId : Option Nat := none
  supportsTools : Bool := false
  deriving DecidableEq, Repr

end Tome

namespace Anthropic

open Tome

/-- A single `{type:'text', text}` block as nested inside an Anthropic
`tool_result` content unit. -/
structure TextBlock where
  text : String
  deriving DecidableEq, Repr

/-- The content units the translation in
`src/lib/engines/anthropic/message.ts` produces: visible text, a thinking
block, a `tool_use` invocation, or a `tool_result` carrying nested text
blocks. -/
inductive ContentBlock where
  | text (text : String)
  | thinking (thinking : String)
  | tool_use (id : String) (name : String) (input : List (String × String))
  | tool_result (tool_use_id : String) (content : List TextBlock)
  deriving DecidableEq, Repr

/-- Anthropic `MessageParam` roles: only `user` and `assistant`. -/
inductive ARole where
  | user
  | assistant
  deriving DecidableEq, Repr

/-- Anthropic `MessageParam`: a role plus a list of content blocks. -/
structure MessageParam where
  role : ARole
  content : List ContentBlock
  deriving DecidableEq, Repr

/-- `user` of `anthropic/message.ts`: a single text block. -/
def user (message : Message) : MessageParam :=
  { role := ARole.user
    content := [ContentBlock.text message.content] }

/-- `assistant` of `anthropic/message.ts`: pushes a thinking block when
`message.thought` is truthy, a text block when `message.content` is truthy,
one `tool_use` block per tool call (`id: call.id || ''`), and substitutes a
single empty text block when the accumulated content is empty. -/
def assistant (message : Message) : MessageParam :=
  let thinkingBlocks : List ContentBlock :=
    match message.thought with
    | some t => if t = "" then [] else [ContentBlock.thinking t]
    | none => []
  let textBlocks : List ContentBlock :=
    if message.content = "" then [] else [ContentBlock.text message.content]
  let toolUseBlocks : List ContentBlock :=
    message.toolCalls.map fun call =>
      ContentBlock.tool_use (call.id.getD "") call.function.name call.function.arguments
  let content := thinkingBlocks ++ textBlocks ++ toolUseBlocks
  { role := ARole.assistant
    content := if content.isEmpty then [ContentBlock.text ""] else content }

/-- `toolResponse` of `anthropic/message.ts`. `Session.find` is the external
persistence collaborator, passed in as `sessions : Option ℕ → List Message`
(the message list of the session with the given id). The originating call is
looked up by scanning all tool calls of the session's messages for one whose
id equals the message's `toolCallId`; the sent `tool_use_id` is
`call?.id || ''`. -/
def toolResponse (sessions : Option Nat → List Message) (message : Message) :
    MessageParam :=
  let call : Option ToolCall :=
    ((sessions message.sessionId).flatMap fun m => m.toolCalls).find?
      fun tc => tc.id == message.toolCallId
  { role := ARole.user
    content :=
      [ContentBlock.tool_result ((call.bind fun c => c.id).getD "")
        [{ text := message.content }]] }

/-- `toAnthropic` of `anthropic/message.ts`: `system` messages translate to
`undefined` (they are carried out-of-band by the client), `assistant` and
`tool` messages go through their translators, every other role becomes a
plain user turn. -/
def toAnthropic (sessions : Option Nat → List Message) (message : Message) :
    Option MessageParam :=
  match message.role with
  | Role.system => none
  | Role.assistant => some (assistant message)
  | Role.tool => some (toolResponse sessions message)
  | _ => some (user message)

end Anthropic

namespace Anthropic

open Tome

/-- `normalize` of `anthropic/tool.ts`: keeps the tool's name and
description, and rebuilds `parameters` with `type: 'object'` while passing
`properties` and `required` through unmodified. -/
def normalize (tool : Tool) : ToolFunctionDef :=
  { name := tool.function.name
    description := tool.function.description
    parameters :=
      { type := "object"
        properties := tool.function.parameters.properties
        required := tool.function.parameters.required } }

/-- Anthropic tool wire shape produced by `toAnthropicTools`
(the constant `type: 'function'` tag is omitted). -/
structure AnthropicTool where
  function : ToolFunctionDef
  deriving DecidableEq, Repr

/-- `toAnthropicTools` of `anthropic/tool.ts`. -/
def toAnthropicTools (tools : List Tool) : List AnthropicTool :=
  tools.map fun tool => { function := normalize tool }

/-- JS `String.prototype.includes`, written as a structural substring
check on the character lists. -/
def strIncludes (s sub : String) : Bool :=
  go s.data
where
  go : List Char → Bool
    | [] => sub.data.isPrefixOf ([] : List Char)
    | c :: cs => sub.data.isPrefixOf (c :: cs) || go cs

/-- `clamp` of `anthropic/client.ts`:
`Math.min(Math.max(value, min), max)`, with the two-argument `Math.max` /
`Math.min` written out as order comparisons on `ℚ`. -/
def clamp (value lo hi : ℚ) : ℚ :=
  let m := if value ≤ lo then lo else value
  if m ≤ hi then m else hi

/-- The state of a constructed `AnthropicClient`. -/
structure AnthropicClient where
  apiKey : String
  engineId : Nat
  baseUrl : Option String
  isMiniMax : Bool
  defaultModels : List String
  deriving DecidableEq, Repr

/-- The `AnthropicClient` constructor: throws
`'Anthropic apiKey obrigatório'` when the apiKey is falsy (empty); otherwise
records the base URL (`options.url || undefined`), derives the MiniMax flag
from the URL, and fixes the curated default model list. The throw is
embedded as `Except.error`. -/
def AnthropicClient.make (options : ClientProps) :
    Except String AnthropicClient :=
  if options.apiKey = "" then
    Except.error "Anthropic apiKey obrigatório"
  else
    let baseUrl : Option String := if options.url = "" then none else some options.url
    let isMiniMax := strIncludes (baseUrl.getD "") "api.minimax.io/anthropic"
    Except.ok
      { apiKey := options.apiKey
        engineId := options.engineId
        baseUrl := baseUrl
        isMiniMax := isMiniMax
        defaultModels :=
          if isMiniMax then ["MiniMax-M2", "MiniMax-M2-Stable"]
          else ["claude-3-5-sonnet-latest", "claude-3-opus-latest"] }

/-- `MessageCreateParamsNonStreaming` as the Anthropic adapter fills it in. -/
structure MessageCreateParams where
  model : String
  max_tokens : Nat
  temperature : Option ℚ := none
  messages : List MessageParam
  system : Option String := none
  tools : Option (List AnthropicTool) := none
  deriving DecidableEq, Repr

/-- JS `a || b` on an optional number: a missing or zero (falsy) value
falls back to the default. -/
def orFalsyNat (v : Option Nat) (fallback : Nat) : Nat :=
  match v with
  | some n => if n = 0 then fallback else n
  | none => fallback

/-- The request parameters built by `AnthropicClient.chat` (lines 46–57 of
`anthropic/client.ts`): the system side channel joins all system-message
contents with a blank line; the turn list maps `toAnthropic` over the whole
history and compacts the `undefined`s; `max_tokens` is
`model.metadata?.limits?.max_output_tokens || (isMiniMax ? 4096 : 1024)`;
`temperature` is `clamp(options.temperature ?? 0.8, 0.01, 1)`;
`system`/`tools` are attached only when truthy/non-empty. -/
def AnthropicClient.chatParams (c : AnthropicClient)
    (sessions : Option Nat → List Message) (model : Model)
    (history : List Message) (tools : List Tool) (options : Options) :
    MessageCreateParams :=
  let system :=
    String.intercalate "\n\n"
      ((history.filter fun m => m.role == Role.system).map fun m => m.content)
  let messages := (history.map (toAnthropic sessions)).reduceOption
  { model := model.name
    max_tokens :=
      orFalsyNat ((model.metadata.bind fun md => md.limits).bind fun l =>
        l.max_output_tokens) (if c.isMiniMax then 4096 else 1024)
    temperature := some (clamp (options.temperature.getD 0.8) (1/100) 1)
    messages := messages
    system := if system = "" then none else some system
    tools := if tools.length > 0 then some (toAnthropicTools tools) else none }

/-- The minimal ping request `AnthropicClient.connected` issues:
first default model, `max_tokens: 1`, a single `'ping'` user turn. -/
def AnthropicClient.pingParams (c : AnthropicClient) : MessageCreateParams :=
  { model := c.defaultModels.headD ""
    max_tokens := 1
    messages := [{ role := ARole.user, content := [ContentBlock.text "ping"] }] }

/-- `AnthropicClient.connected`: issues the ping request through the SDK
(embedded as the oracle `net`, whose `Except.error` case is a rejected
promise) inside a try/catch that converts every failure into `false`. -/
def AnthropicClient.connected (c : AnthropicClient)
    (net : MessageCreateParams → Except String Unit) : Bool :=
  match net (AnthropicClient.pingParams c) with
  | Except.ok _ => true
  | Except.error _ => false

end Anthropic

namespace Gemini

open Tome

/-- `toGeminiType` of `gemini/tool.ts`: a lookup table from canonical
JSON-Schema type names to the Gemini `Type` enum (whose runtime values are
the upper-case strings), with `|| Type.STRING` as the default for a type not
in the table. -/
def toGeminiType (type : String) : String :=
  match type with
  | "string" => "STRING"
  | "number" => "NUMBER"
  | "boolean" => "BOOLEAN"
  | "integer" => "INTEGER"
  | "array" => "ARRAY"
  | "object" => "OBJECT"
  | _ => "STRING"

/-- The per-property translation inside `fromOne` of `gemini/tool.ts`:
`{...prop, ...(prop.type && !prop.anyOf ? {type: toGeminiType(prop.type)} : {})}`
— the type is remapped only when it is truthy (present and non-empty) and
the property has no `anyOf`; otherwise the property is spread through
unchanged. -/
def mapProp (p : Property) : Property :=
  match p.type with
  | some t => if t ≠ "" && !p.anyOf then { p with type := some (toGeminiType t) } else p
  | none => p

/-- `fromOne` of `gemini/tool.ts`: spreads `tool.function`, rebuilds
`parameters` with `type: Type.OBJECT` and `Object.map`-translated properties
(keys unchanged, values through `mapProp`). -/
def fromOne (tool : Tool) : ToolFunctionDef :=
  { name := tool.function.name
    description := tool.function.description
    parameters :=
      { type := "OBJECT"
        required := tool.function.parameters.required
        properties :=
          tool.function.parameters.properties.map fun np => (np.1, mapProp np.2) } }

end Gemini

namespace Registry

open Tome

/-- The adapter constructors registered in the `Engine.client` table of
`src/lib/models/engine.svelte.ts` (`ollama | openai | gemini |
openai-compat`, the last mapping to the OpenAI constructor). -/
inductive ClientKind where
  | ollama
  | openai
  | gemini
  deriving DecidableEq, Repr

/-- The fixed kind → constructor table of the `Engine.client` getter; an
engine type absent from the table yields `none` (the getter returns
`undefined`). -/
def clientFor (type : String) : Option ClientKind :=
  match type with
  | "ollama" => some ClientKind.ollama
  | "openai" => some ClientKind.openai
  | "gemini" => some ClientKind.gemini
  | "openai-compat" => some ClientKind.openai
  | _ => none

/-- A per-provider allow-list entry of `AVAILABLE_MODELS`: either the
`'all'` sentinel or an explicit name list. -/
inductive AllowList where
  | all
  | names (names : List String)
  deriving DecidableEq, Repr

/-- The `AVAILABLE_MODELS` record of `engine.svelte.ts`. -/
def availableModels (type : String) : Option AllowList :=
  match type with
  | "openai-compat" => some AllowList.all
  | "ollama" => some AllowList.all
  | "openai" => some (AllowList.names
      ["gpt-4o", "o4-mini", "gpt-4.5-preview", "gpt-4.1", "gpt-4.1-mini", "gpt-5"])
  | "gemini" => some (AllowList.names
      ["gemini-2.5-pro", "gemini-2.5-flash", "gemini-2.5-flash-lite",
       "gemini-2.0-flash", "gemini-2.0-flash-lite"])
  | _ => none

/-- The filter predicate of `Engine.fromSql`:
`AVAILABLE_MODELS[engine.type] == 'all' || AVAILABLE_MODELS[engine.type].includes(m.name)`
(only evaluated for engine types present in the table). -/
def modelAllowed (type : String) (m : Model) : Bool :=
  match availableModels type with
  | some AllowList.all => true
  | some (AllowList.names ns) => ns.contains m.name
  | none => false

/-- `.sortBy('name')`: insertion of one model into a name-sorted list. -/
def insertByName (m : Model) : List Model → List Model
  | [] => [m]
  | x :: xs => if m.name ≤ x.name then m :: x :: xs else x :: insertByName m xs

/-- `.sortBy('name')` as a structural insertion sort. -/
def sortByName : List Model → List Model
  | [] => []
  | x :: xs => insertByName x (sortByName xs)

/-- A persisted engine row (`engines` table). -/
structure EngineRow where
  id : Nat
  name : String
  type : String
  options : String
  deriving DecidableEq, Repr

/-- A live `Engine` record after `fromSql`. -/
structure Engine where
  id : Nat
  name : String
  type : String
  options : String
  models : List Model
  deriving DecidableEq, Repr

/-- `Engine.fromSql` of `engine.svelte.ts`: builds the engine with an empty
model list; only when the kind table yields a client AND `connected()`
returns true does it attempt `models()` (embedded as the per-engine oracle
`modelsRes`, `Except.error` being a rejected promise), filter the result
against the allow-list, sort it by name, and attach it; a `models()` failure
is swallowed by the `catch {}` and leaves the model list empty. -/
def fromSql (row : EngineRow) (conn : Bool)
    (modelsRes : Except String (List Model)) : Engine :=
  let engine : Engine :=
    { id := row.id, name := row.name, type := row.type
      options := row.options, models := [] }
  if (clientFor row.type).isSome && conn then
    match modelsRes with
    | Except.ok ms =>
        { engine with models := sortByName (ms.filter (modelAllowed row.type)) }
    | Except.error _ => engine
  else engine

/-- Model sync across all persisted engines: each row is mapped through
`fromSql` with its own `connected()`/`models()` outcomes. -/
def syncEngines (rows : List EngineRow) (conn : EngineRow → Bool)
    (modelsRes : EngineRow → Except String (List Model)) : List Engine :=
  rows.map fun row => fromSql row (conn row) (modelsRes row)

end Registry

namespace Dispatch

open Tome

/-- The collaborators `dispatch` of `src/lib/dispatch.ts` interacts with:
the resolved adapter's `chat` (a reply as a function of the history sent),
the Tauri `call_mcp_tool` command, and the `uuid4()` generator (a stream of
fresh ids indexed by how many ids were drawn so far). -/
structure Env where
  chat : List Message → Message
  call_mcp_tool : String → List (String × String) → Except String String
  fresh : Nat → String

/-- Modelled from the spec: the tool-execution transport behind the
`call_mcp_tool` command (an out-of-process invocation whose implementation
is not part of the analysed source) "returns a result string" and its
failures "are captured as text, not exceptions" — a failing execution
resolves with the error text as the result, so the dispatch loop receives it
as ordinary content. -/
def execTool (env : Env) (name : String) (args : List (String × String)) : String :=
  match env.call_mcp_tool name args with
  | Except.ok s => s
  | Except.error e => e

/-- `call.id ||= uuid4()`: the id kept for the first tool call of a batch —
the provider-supplied id when truthy (present and non-empty), a fresh
generated one otherwise. -/
def keptId (env : Env) (k : Nat) (call : ToolCall) : String :=
  match call.id with
  | some s => if s = "" then env.fresh k else s
  | none => env.fresh k

/-- The assistant message `dispatch` persists for one handled tool call:
`{role:'assistant', content:'', toolCalls:[call]}`. -/
def assistantCallMsg (sessionId : Option Nat) (call : ToolCall) : Message :=
  { role := Role.assistant, content := "", toolCalls := [call]
    sessionId := sessionId }

/-- The tool message `dispatch` persists for one handled tool call:
`{role:'tool', content, toolCallId: call.id}`. -/
def toolResultMsg (sessionId : Option Nat) (content : String) (id : String) :
    Message :=
  { role := Role.tool, content := content, toolCallId := some id
    sessionId := sessionId }

/-- The provenance stamping of the terminal reply in `dispatch`:
`message.engineId = model.engineId; message.model = String(model.id);
message.sessionId = session.id`. -/
def stamp (model : Model) (sessionId : Option Nat) (m : Message) : Message :=
  { m with
    engineId := model.engineId
    model := some model.id
    sessionId := sessionId }

/-- `dispatch` of `src/lib/dispatch.ts`. The session is represented by its
id and its persisted message history; `addMessage` is history append. A
reply with tool calls handles only the first call of the batch — id
synthesis, tool execution, persisting the assistant-call and tool-result
messages — and then `return await dispatch(...)` recurses from inside the
first loop iteration. A reply without tool calls is stamped with
provenance, persisted, and returned. The source recursion is unbounded;
`fuel` bounds it in the embedding, `none` meaning the fuel ran out, and `k`
indexes the uuid stream. -/
def dispatch (env : Env) (model : Model) (sessionId : Option Nat) :
    Nat → Nat → List Message → Option (List Message × Message)
  | 0, _, _ => none
  | fuel + 1, k, history =>
    let message := env.chat history
    match message.toolCalls with
    | [] =>
        let final := stamp model sessionId message
        some (history ++ [final], final)
    | call :: _rest =>
        let id := keptId env k call
        let call := { call with id := some id }
        let content := execTool env call.function.name call.function.arguments
        dispatch env model sessionId fuel (k + 1)
          (history ++ [assistantCallMsg sessionId call,
                       toolResultMsg sessionId content id])

end Dispatch

namespace Tome

open Anthropic Gemini Registry Dispatch

/-! ## Helper lemmas -/

theorem clamp_mem (v lo hi : ℚ) (h : lo ≤ hi) :
    lo ≤ clamp v lo hi ∧ clamp v lo hi ≤ hi := by
  simp only [clamp]
  split_ifs <;> constructor <;> linarith

theorem clamp_of_high (v lo hi : ℚ) (h : lo ≤ hi) (hv : hi < v) :
    clamp v lo hi = hi := by
  simp only [clamp]
  split_ifs <;> linarith

theorem clamp_of_low (v lo hi : ℚ) (h : lo ≤ hi) (hv : v < lo) :
    clamp v lo hi = lo := by
  simp only [clamp]
  split_ifs <;> linarith

theorem clamp_of_mem (v lo hi : ℚ) (h1 : lo ≤ v) (h2 : v ≤ hi) :
    clamp v lo hi = v := by
  simp only [clamp]
  split_ifs <;> linarith

/-- Mapping `toAnthropic` over a history and compacting drops exactly the
system messages: the result is unchanged if the system messages are
filtered away first. -/
theorem reduceOption_toAnthropic_filter (sessions : Option Nat → List Message)
    (history : List Message) :
    (history.map (toAnthropic sessions)).reduceOption =
      ((history.filter fun m => !(m.role == Role.system)).map
        (toAnthropic sessions)).reduceOption := by
  induction history with
  | nil => rfl
  | cons m t ih =>
      cases hr : m.role <;>
        simp_all [toAnthropic, List.filter_cons, List.reduceOption]

/-! ## Claim C4 -/

/-- Claim C4: for every history given to the Anthropic adapter's chat, every
system message translates to no turn, the translated turn sequence is
exactly the compacted translation of the non-system messages, the
side-channel system value is the contents of all system messages in their
original order joined by a blank line, and on the concrete history
[system "A", system "B", user "hi"] the built request carries
system = "A\n\nB" and a single translated user turn. -/
theorem anthropic_system_side_channel (c : AnthropicClient)
    (sessions : Option Nat → List Message) (model : Model) (tools : List Tool)
    (options : Options) (history : List Message) :
    (∀ m ∈ history, m.role = Role.system → toAnthropic sessions m = none) ∧
    (c.chatParams sessions model history tools options).messages =
      ((history.filter fun m => !(m.role == Role.system)).map
        (toAnthropic sessions)).reduceOption ∧
    (c.chatParams sessions model history tools options).system.getD "" =
      String.intercalate "\n\n"
        ((history.filter fun m => m.role == Role.system).map fun m => m.content) ∧
    (c.chatParams sessions model
        [{ role := Role.system, content := "A" },
         { role := Role.system, content := "B" },
         { role := Role.user, content := "hi" }] tools options).system =
      some "A\n\nB" ∧
    (c.chatParams sessions model
        [{ role := Role.system, content := "A" },
         { role := Role.system, content := "B" },
         { role := Role.user, content := "hi" }] tools options).messages =
      [{ role := ARole.user, content := [ContentBlock.text "hi"] }] := by
  refine ⟨?_, ?_, ?_, rfl, rfl⟩
  · intro m _ hm
    simp [toAnthropic, hm]
  · simpa [AnthropicClient.chatParams] using
      reduceOption_toAnthropic_filter sessions history
  · simp only [AnthropicClient.chatParams]
    split_ifs with h
    · simp [h]
    · rfl

/-- Claim C4 witness: the general conjuncts instantiated on the concrete
§8 history. -/
theorem anthropic_system_side_channel_witness :
    ({ role := Role.system, content := "A" } : Message) ∈
        ([{ role := Role.system, content := "A" },
          { role := Role.user, content := "hi" }] : List Message) ∧
    toAnthropic (fun _ => []) { role := Role.system, content := "A" } = none :=
  ⟨by simp,
    (anthropic_system_side_channel
        { apiKey := "k", engineId := 1, baseUrl := none, isMiniMax := false
          defaultModels := [] }
        (fun _ => []) { id := "anthropic:m", name := "m" } [] {}
        [{ role := Role.system, content := "A" },
         { role := Role.user, content := "hi" }]).1
      { role := Role.system, content := "A" } (by simp) rfl⟩

/-! ## Claim C5 -/

/-- Claim C5: an assistant message with empty content, no thought and an
empty tool-call list is still translated to a turn (not omitted), and that
turn contains exactly one visible-text block whose text is the empty
string. -/
theorem anthropic_empty_assistant_turn (sessions : Option Nat → List Message)
    (m : Message) (hrole : m.role = Role.assistant) (hc : m.content = "")
    (ht : m.thought = none) (htc : m.toolCalls = []) :
    toAnthropic sessions m =
      some { role := ARole.assistant, content := [ContentBlock.text ""] } := by
  simp [toAnthropic, hrole, assistant, hc, ht, htc]

/-- Claim C5 witness: the empty assistant message. -/
theorem anthropic_empty_assistant_turn_witness :
    ({ role := Role.assistant } : Message).content = "" ∧
    toAnthropic (fun _ => []) { role := Role.assistant } =
      some { role := ARole.assistant, content := [ContentBlock.text ""] } :=
  ⟨rfl, anthropic_empty_assistant_turn (fun _ => []) { role := Role.assistant }
    rfl rfl rfl rfl⟩

/-! ## Claim C6 -/

/-- Claim C6: the temperature sent by the Anthropic adapter always lies in
[0.01, 1]; a requested temperature above 1 is sent as 1, one below 0.01 is
sent as 0.01, and one already inside the range is sent unchanged. -/
theorem anthropic_temperature_clamped (c : AnthropicClient)
    (sessions : Option Nat → List Message) (model : Model)
    (history : List Message) (tools : List Tool) (options : Options) :
    ∃ t, (c.chatParams sessions model history tools options).temperature = some t ∧
      1/100 ≤ t ∧ t ≤ 1 ∧
      (∀ x, options.temperature = some x →
        (1 < x → t = 1) ∧ (x < 1/100 → t = 1/100) ∧
        (1/100 ≤ x → x ≤ 1 → t = x)) := by
  refine ⟨clamp (options.temperature.getD 0.8) (1/100) 1, rfl, ?_, ?_, ?_⟩
  · exact (clamp_mem _ _ _ (by norm_num)).1
  · exact (clamp_mem _ _ _ (by norm_num)).2
  · intro x hx
    rw [hx, Option.getD_some]
    exact ⟨fun h => clamp_of_high _ _ _ (by norm_num) h,
      fun h => clamp_of_low _ _ _ (by norm_num) h,
      fun h1 h2 => clamp_of_mem _ _ _ h1 h2⟩

/-- Claim C6 witness: the §8 scenario — a requested temperature of 1.5 is
sent as 1. -/
theorem anthropic_temperature_clamped_witness :
    (AnthropicClient.chatParams
      { apiKey := "k", engineId := 1, baseUrl := none, isMiniMax := false
        defaultModels := [] }
      (fun _ => []) { id := "anthropic:m", name := "m" } [] []
      { temperature := some (3/2) }).temperature = some 1 := by
  obtain ⟨t, ht, -, -, himp⟩ :=
    anthropic_temperature_clamped
      { apiKey := "k", engineId := 1, baseUrl := none, isMiniMax := false
        defaultModels := [] }
      (fun _ => []) { id := "anthropic:m", name := "m" } [] []
      { temperature := some (3/2) }
  rw [ht, (himp (3/2) rfl).1 (by norm_num)]

/-! ## Claim C7 (corrected) -/

/-- Claim C7 counterexample: a model whose metadata declares
`max_output_tokens = 0` — the built request does not carry the declared
limit 0 but the fallback constant 1024, because the JS `||` treats a zero
limit as absent. -/
theorem anthropic_max_tokens_zero_cex :
    ((({ id := "anthropic:m", name := "m"
         metadata := some { limits := some { max_output_tokens := some 0 } } } :
        Model).metadata.bind Metadata.limits).bind Limits.max_output_tokens
      = some 0) ∧
    (AnthropicClient.chatParams
      { apiKey := "k", engineId := 1, baseUrl := none, isMiniMax := false
        defaultModels := [] }
      (fun _ => [])
      { id := "anthropic:m", name := "m"
        metadata := some { limits := some { max_output_tokens := some 0 } } }
      [] [] {}).max_tokens = 1024 ∧ (1024 : Nat) ≠ 0 :=
  ⟨rfl, rfl, by decide⟩

/-- Claim C7 (amended): the required max-output field is always set; it
equals the per-model declared limit when the metadata carries a nonzero
one, and falls back to the variant default (4096 for MiniMax, 1024
otherwise) when the declared limit is absent — or zero, which the JS `||`
treats like an absent value. -/
theorem anthropic_max_tokens_policy (c : AnthropicClient)
    (sessions : Option Nat → List Message) (model : Model)
    (history : List Message) (tools : List Tool) (options : Options) :
    (∀ v, (model.metadata.bind Metadata.limits).bind Limits.max_output_tokens
        = some v → v ≠ 0 →
      (c.chatParams sessions model history tools options).max_tokens = v) ∧
    ((model.metadata.bind Metadata.limits).bind Limits.max_output_tokens
        = none ∨
     (model.metadata.bind Metadata.limits).bind Limits.max_output_tokens
        = some 0 →
      (c.chatParams sessions model history tools options).max_tokens =
        if c.isMiniMax then 4096 else 1024) := by
  constructor
  · intro v hv hv0
    simp [AnthropicClient.chatParams, orFalsyNat, hv, hv0]
  · rintro (h | h) <;> simp [AnthropicClient.chatParams, orFalsyNat, h]

/-- Claim C7 witness: a declared limit of 2000 is used as-is; an absent
limit falls back to 1024 on the non-MiniMax variant. -/
theorem anthropic_max_tokens_policy_witness :
    (AnthropicClient.chatParams
      { apiKey := "k", engineId := 1, baseUrl := none, isMiniMax := false
        defaultModels := [] }
      (fun _ => [])
      { id := "anthropic:m", name := "m"
        metadata := some { limits := some { max_output_tokens := some 2000 } } }
      [] [] {}).max_tokens = 2000 ∧
    (AnthropicClient.chatParams
      { apiKey := "k", engineId := 1, baseUrl := none, isMiniMax := false
        defaultModels := [] }
      (fun _ => []) { id := "anthropic:m", name := "m" } [] [] {}).max_tokens
      = 1024 :=
  ⟨(anthropic_max_tokens_policy
      { apiKey := "k", engineId := 1, baseUrl := none, isMiniMax := false
        defaultModels := [] }
      (fun _ => [])
      { id := "anthropic:m", name := "m"
        metadata := some { limits := some { max_output_tokens := some 2000 } } }
      [] [] {}).1 2000 rfl (by decide),
    (anthropic_max_tokens_policy
      { apiKey := "k", engineId := 1, baseUrl := none, isMiniMax := false
        defaultModels := [] }
      (fun _ => []) { id := "anthropic:m", name := "m" } [] [] {}).2
      (Or.inl rfl)⟩

/-! ## Claim C10 -/

/-- Claim C10: a canonical tool message translates to a user-role turn with
exactly one tool-result unit whose nested text is the message's content;
the unit's tool_use_id comes from the ToolCall found by scanning the
session's messages for one whose id equals the message's toolCallId — equal
to toolCallId when such a call exists, and the empty string when none does;
the message's own toolCallId field is never sent directly. -/
theorem anthropic_tool_response_lookup (sessions : Option Nat → List Message)
    (m : Message) :
    (toolResponse sessions m).role = ARole.user ∧
    (toolResponse sessions m).content =
      [ContentBlock.tool_result
        (((((sessions m.sessionId).flatMap fun msg => msg.toolCalls).find?
            fun tc => tc.id == m.toolCallId).bind fun c => c.id).getD "")
        [{ text := m.content }]] ∧
    ((((sessions m.sessionId).flatMap fun msg => msg.toolCalls).find?
        fun tc => tc.id == m.toolCallId) = none →
      (toolResponse sessions m).content =
        [ContentBlock.tool_result "" [{ text := m.content }]]) ∧
    (∀ c s, (((sessions m.sessionId).flatMap fun msg => msg.toolCalls).find?
        fun tc => tc.id == m.toolCallId) = some c → m.toolCallId = some s →
      (((((sessions m.sessionId).flatMap fun msg => msg.toolCalls).find?
          fun tc => tc.id == m.toolCallId).bind fun c => c.id).getD "") = s) ∧
    (m.role = Role.tool → toAnthropic sessions m = some (toolResponse sessions m)) := by
  refine ⟨rfl, rfl, ?_, ?_, ?_⟩
  · intro h
    simp [toolResponse, h]
  · intro c s hfind hid
    have hc := List.find?_some hfind
    rw [beq_iff_eq] at hc
    rw [hfind]
    simp [hc, hid]
  · intro h
    simp [toAnthropic, h]

/-- Claim C10 witness: a session holding an assistant tool call with id
"call-7", answered by a tool message with the same toolCallId — the sent
tool_use_id is "call-7"; with an empty session the sent tool_use_id is the
empty string. -/
theorem anthropic_tool_response_lookup_witness :
    ((((((fun _ => [{ role := Role.assistant
                      toolCalls := [{ id := some "call-7"
                                      function := { name := "get_weather"
                                                    arguments := [] } }] }]) :
            Option Nat → List Message) (some 1)).flatMap fun msg => msg.toolCalls).find?
        fun tc => tc.id == (({ role := Role.tool, content := "ok"
                               toolCallId := some "call-7"
                               sessionId := some 1 } : Message)).toolCallId).bind
          fun c => c.id).getD "" = "call-7" ∧
    (toolResponse (fun _ => []) { role := Role.tool, content := "ok"
                                  toolCallId := some "call-7"
                                  sessionId := some 1 }).content =
      [ContentBlock.tool_result "" [{ text := "ok" }]] :=
  ⟨(anthropic_tool_response_lookup
      (fun _ => [{ role := Role.assistant
                   toolCalls := [{ id := some "call-7"
                                   function := { name := "get_weather"
                                                 arguments := [] } }] }])
      { role := Role.tool, content := "ok", toolCallId := some "call-7"
        sessionId := some 1 }).2.2.2.1
      { id := some "call-7"
        function := { name := "get_weather", arguments := [] } } "call-7" rfl rfl,
    (anthropic_tool_response_lookup (fun _ => [])
      { role := Role.tool, content := "ok", toolCallId := some "call-7"
        sessionId := some 1 }).2.2.1 rfl⟩

/-! ## Claim C8 (corrected) -/

/-- Claim C8 counterexample: a canonical tool with one property whose
schema type is absent — the Gemini tool-definition translation leaves the
property's type absent instead of mapping it to the provider's string-type
spelling "STRING". -/
theorem gemini_absent_type_cex :
    (Gemini.fromOne
      { function := { name := "t", description := "d"
                      parameters := { type := "object", required := []
                                      properties := [("p", { type := none
                                                             description := "pd" })] } } }
      ).parameters.properties.map (fun np => np.2.type) = [none] ∧
    (none : Option String) ≠ some "STRING" := by
  constructor
  · rfl
  · decide

/-- Claim C8 (amended): both cited tool-definition translations preserve
the tool's name, description, required list, and the list of property names
(and each property's description). The Anthropic translation passes the
property schemas through unmodified. The Gemini translation changes only
type spellings: a present, non-empty type on a property without anyOf is
mapped through the enum table — the six canonical names to their enum
spellings, any other such type to the string spelling "STRING" — while a
property whose type is absent or empty, or which carries anyOf, is passed
through with its type unchanged. -/
theorem tool_translation_preservation (t : Tool) :
    toAnthropicTools [t] = [{ function := normalize t }] ∧
    (normalize t).name = t.function.name ∧
    (normalize t).description = t.function.description ∧
    (normalize t).parameters.required = t.function.parameters.required ∧
    (normalize t).parameters.properties = t.function.parameters.properties ∧
    (Gemini.fromOne t).name = t.function.name ∧
    (Gemini.fromOne t).description = t.function.description ∧
    (Gemini.fromOne t).parameters.required = t.function.parameters.required ∧
    (Gemini.fromOne t).parameters.properties.map Prod.fst =
      t.function.parameters.properties.map Prod.fst ∧
    (∀ nm p, (nm, p) ∈ t.function.parameters.properties →
      (nm, Gemini.mapProp p) ∈ (Gemini.fromOne t).parameters.properties ∧
      (Gemini.mapProp p).description = p.description ∧
      (∀ s, p.type = some s → s ≠ "" → p.anyOf = false →
        (Gemini.mapProp p).type = some (Gemini.toGeminiType s)) ∧
      (p.type = none ∨ p.type = some "" ∨ p.anyOf = true →
        (Gemini.mapProp p).type = p.type) ∧
      (∀ s, p.type = some s → s ≠ "" → p.anyOf = false →
        s ∉ ["string", "number", "boolean", "integer", "array", "object"] →
        (Gemini.mapProp p).type = some "STRING")) := by
  refine ⟨rfl, rfl, rfl, rfl, rfl, rfl, rfl, rfl, ?_, ?_⟩
  · simp [Gemini.fromOne]
  · intro nm p hp
    refine ⟨?_, ?_, ?_, ?_, ?_⟩
    · simpa [Gemini.fromOne] using
        List.mem_map_of_mem (fun np => (np.1, Gemini.mapProp np.2)) hp
    · unfold Gemini.mapProp
      cases p.type
      · rfl
      · dsimp only
        split_ifs <;> rfl
    · intro s hs hne hanyOf
      simp [Gemini.mapProp, hs, hne, hanyOf]
    · rintro (h | h | h)
      · simp [Gemini.mapProp, h]
      · simp [Gemini.mapProp, h]
      · cases htype : p.type <;> simp [Gemini.mapProp, htype, h]
    · intro s hs hne hanyOf hnot
      have : Gemini.toGeminiType s = "STRING" := by
        rw [Gemini.toGeminiType.eq_def]
        split <;> simp_all
      simp [Gemini.mapProp, hs, hne, hanyOf, this]

/-- Claim C8 witness: a concrete tool with a known type "number" (mapped to
"NUMBER") and an unknown type "decimal" (mapped to "STRING"), both
preserving names and descriptions. -/
theorem tool_translation_preservation_witness :
    (Gemini.fromOne
      { function := { name := "calc", description := "d"
                      parameters := { type := "object", required := ["x"]
                                      properties :=
                                        [("x", { type := some "number"
                                                 description := "dx" }),
                                         ("y", { type := some "decimal"
                                                 description := "dy" })] } } }
      ).parameters.properties.map (fun np => (np.1, np.2.type)) =
      [("x", some "NUMBER"), ("y", some "STRING")] ∧
    (normalize
      { function := { name := "calc", description := "d"
                      parameters := { type := "object", required := ["x"]
                                      properties :=
                                        [("x", { type := some "number"
                                                 description := "dx" }),
                                         ("y", { type := some "decimal"
                                                 description := "dy" })] } } }
      ).parameters.required = ["x"] := by
  have h := tool_translation_preservation
    { function := { name := "calc", description := "d"
                    parameters := { type := "object", required := ["x"]
                                    properties :=
                                      [("x", { type := some "number"
                                               description := "dx" }),
                                       ("y", { type := some "decimal"
                                               description := "dy" })] } } }
  refine ⟨?_, ?_⟩
  · have hx := (h.2.2.2.2.2.2.2.2.2 "x" { type := some "number", description := "dx" }
      (by simp)).2.2.1 "number" rfl (by decide) rfl
    have hy := (h.2.2.2.2.2.2.2.2.2 "y" { type := some "decimal", description := "dy" }
      (by simp)).2.2.2.2 "decimal" rfl (by decide) rfl (by decide)
    simp [Gemini.fromOne, hx, hy]
    decide
  · rw [h.2.2.2.1]

/-! ## Claim C3 (corrected) -/

/-- Claim C3 counterexample: constructing the Anthropic adapter with an
empty credential does not yield an adapter whose `connected()` could return
false — the constructor itself throws, so no such adapter exists. -/
theorem anthropic_empty_key_construction_fails :
    AnthropicClient.make { apiKey := "", url := "", engineId := 1 } =
      Except.error "Anthropic apiKey obrigatório" ∧
    (AnthropicClient.make { apiKey := "", url := "", engineId := 1 }).isOk
      = false :=
  ⟨rfl, rfl⟩

/-- Claim C3 (amended): the empty-credential check lives in the
constructor, not in `connected()`: constructing the Anthropic adapter with
an empty credential fails immediately with an error (leaving no adapter and
issuing no network request), and for every successfully constructed adapter
`connected()` never raises — it returns true exactly when the ping request
resolves, converting every provider failure into false. -/
theorem anthropic_connected_total (props : ClientProps) (c : AnthropicClient)
    (net : MessageCreateParams → Except String Unit) :
    (props.apiKey = "" →
      AnthropicClient.make props = Except.error "Anthropic apiKey obrigatório") ∧
    AnthropicClient.connected c net = (net (AnthropicClient.pingParams c)).isOk ∧
    (∀ e, net (AnthropicClient.pingParams c) = Except.error e →
      AnthropicClient.connected c net = false) := by
  refine ⟨?_, ?_, ?_⟩
  · intro h
    simp [AnthropicClient.make, h]
  · unfold AnthropicClient.connected
    cases net (AnthropicClient.pingParams c) <;> rfl
  · intro e he
    unfold AnthropicClient.connected
    rw [he]

/-- Claim C3 witness: an empty credential fails construction; a rejecting
provider makes `connected()` return false. -/
theorem anthropic_connected_total_witness :
    (({ apiKey := "", url := "", engineId := 1 } : ClientProps)).apiKey = "" ∧
    AnthropicClient.make { apiKey := "", url := "", engineId := 1 } =
      Except.error "Anthropic apiKey obrigatório" ∧
    AnthropicClient.connected
      { apiKey := "k", engineId := 1, baseUrl := none, isMiniMax := false
        defaultModels := ["claude-3-5-sonnet-latest", "claude-3-opus-latest"] }
      (fun _ => Except.error "401 invalid api key") = false :=
  ⟨rfl,
    (anthropic_connected_total { apiKey := "", url := "", engineId := 1 }
      { apiKey := "k", engineId := 1, baseUrl := none, isMiniMax := false
        defaultModels := ["claude-3-5-sonnet-latest", "claude-3-opus-latest"] }
      (fun _ => Except.error "401 invalid api key")).1 rfl,
    (anthropic_connected_total { apiKey := "", url := "", engineId := 1 }
      { apiKey := "k", engineId := 1, baseUrl := none, isMiniMax := false
        defaultModels := ["claude-3-5-sonnet-latest", "claude-3-opus-latest"] }
      (fun _ => Except.error "401 invalid api key")).2.2
      "401 invalid api key" rfl⟩

/-! ## Claim C9 -/

theorem mem_insertByName (a m : Model) (l : List Model) :
    a ∈ insertByName m l ↔ a = m ∨ a ∈ l := by
  induction l with
  | nil => simp [insertByName]
  | cons x xs ih =>
      simp only [insertByName]
      split_ifs
      · simp
      · simp only [List.mem_cons, ih]
        tauto

theorem mem_sortByName (a : Model) (l : List Model) :
    a ∈ sortByName l ↔ a ∈ l := by
  induction l with
  | nil => simp [sortByName]
  | cons x xs ih => simp [sortByName, mem_insertByName, ih]

theorem clientFor_of_availableModels (ty : String) :
    (availableModels ty).isSome → (clientFor ty).isSome := by
  unfold availableModels clientFor
  intro h
  split at h <;> simp_all

/-- Claim C9: during model sync, an engine whose `connected()` came back
false (or that resolves to no adapter) keeps an empty model list no matter
what `models()` would have produced — `models()` is only consulted after a
successful `connected()`; a `models()` failure leaves that engine's model
list empty; a succeeding `models()` is filtered against the per-kind
allow-list, with the `'all'` sentinel meaning no filtering; syncing is
per-engine elementwise, so one engine's failure cannot abort the others;
and an unregistered provider kind resolves to no adapter. -/
theorem engine_sync_policy :
    (∀ row m1 m2, fromSql row false m1 = fromSql row false m2) ∧
    (∀ row conn mres, clientFor row.type = none ∨ conn = false →
      fromSql row conn mres =
        { id := row.id, name := row.name, type := row.type
          options := row.options, models := [] }) ∧
    (∀ row conn e, fromSql row conn (Except.error e) =
        { id := row.id, name := row.name, type := row.type
          options := row.options, models := [] }) ∧
    (∀ row ms, clientFor row.type ≠ none →
      fromSql row true (Except.ok ms) =
        { id := row.id, name := row.name, type := row.type
          options := row.options
          models := sortByName (ms.filter (modelAllowed row.type)) }) ∧
    (∀ row ms, availableModels row.type = some AllowList.all →
      (fromSql row true (Except.ok ms)).models = sortByName ms) ∧
    (∀ row ms ns m, availableModels row.type = some (AllowList.names ns) →
      m ∈ (fromSql row true (Except.ok ms)).models → m.name ∈ ns) ∧
    (∀ rows1 row rows2 conn mres,
      syncEngines (rows1 ++ row :: rows2) conn mres =
        syncEngines rows1 conn mres ++
          fromSql row (conn row) (mres row) :: syncEngines rows2 conn mres) ∧
    (∀ ty, ty ∉ ["ollama", "openai", "gemini", "openai-compat"] →
      clientFor ty = none) := by
  have hok : ∀ row ms, clientFor row.type ≠ none →
      fromSql row true (Except.ok ms) =
        { id := row.id, name := row.name, type := row.type
          options := row.options
          models := sortByName (ms.filter (modelAllowed row.type)) } := by
    intro row ms h
    simp [fromSql, Option.isSome_iff_ne_none, h]
  refine ⟨?_, ?_, ?_, hok, ?_, ?_, ?_, ?_⟩
  · intro row m1 m2
    simp [fromSql]
  · rintro row conn mres (h | h) <;> simp [fromSql, h]
  · intro row conn e
    unfold fromSql
    split <;> rfl
  · intro row ms hall
    have hcf : clientFor row.type ≠ none := by
      rw [← Option.isSome_iff_ne_none]
      exact clientFor_of_availableModels row.type (by rw [hall]; rfl)
    rw [hok row ms hcf]
    have : ms.filter (modelAllowed row.type) = ms :=
      List.filter_eq_self.mpr fun m _ => by simp [modelAllowed, hall]
    rw [this]
  · intro row ms ns m hns hm
    have hcf : clientFor row.type ≠ none := by
      rw [← Option.isSome_iff_ne_none]
      exact clientFor_of_availableModels row.type (by rw [hns]; rfl)
    rw [hok row ms hcf] at hm
    have hmem : m ∈ ms.filter (modelAllowed row.type) :=
      (mem_sortByName m _).mp hm
    have := List.of_mem_filter hmem
    simpa [modelAllowed, hns] using this
  · intro rows1 row rows2 conn mres
    simp [syncEngines]
  · intro ty h
    unfold clientFor
    split <;> simp_all

/-- Claim C9 witness: a Gemini engine whose `models()` resolves with one
allow-listed and one foreign model keeps only the allow-listed one; the
same row with `connected()` = false keeps no models regardless of the
`models()` outcome; the kind `"anthropic"` is not in the adapter table. -/
theorem engine_sync_policy_witness :
    fromSql { id := 3, name := "Gemini", type := "gemini", options := "{}" }
        false (Except.ok [{ id := "gemini:x", name := "gemini-2.5-pro" }]) =
      fromSql { id := 3, name := "Gemini", type := "gemini", options := "{}" }
        false (Except.error "unreachable") ∧
    fromSql { id := 3, name := "Gemini", type := "gemini", options := "{}" }
        true (Except.ok [{ id := "gemini:x", name := "gemini-2.5-pro" },
                         { id := "gemini:y", name := "experimental-7b" }]) =
      { id := 3, name := "Gemini", type := "gemini", options := "{}"
        models := [{ id := "gemini:x", name := "gemini-2.5-pro" }] } ∧
    clientFor "anthropic" = none := by
  refine ⟨engine_sync_policy.1
      { id := 3, name := "Gemini", type := "gemini", options := "{}" } _ _,
    ?_, engine_sync_policy.2.2.2.2.2.2.2 "anthropic" (by decide)⟩
  rw [engine_sync_policy.2.2.2.1
    { id := 3, name := "Gemini", type := "gemini", options := "{}" }
    [{ id := "gemini:x", name := "gemini-2.5-pro" },
     { id := "gemini:y", name := "experimental-7b" }] (by decide)]
  rfl

/-! ## Claim C1 -/

/-- Claim C1: a dispatch round whose adapter reply carries at least one
ToolCall keeps the first call's id when it is non-empty and synthesizes a
fresh non-empty one when it is empty or absent, then recurses on the
history extended with exactly two persisted messages — an assistant message
carrying exactly that one tool call and a tool message whose toolCallId is
that id and whose content is the tool collaborator's return value for that
call's name and arguments — leaving the remaining calls of the batch
untouched; a reply with zero ToolCalls is terminal: it is stamped with
engine/model provenance, persisted, and returned. -/
theorem dispatch_round_behavior (env : Env) (model : Model) (sid : Option Nat)
    (fuel k : Nat) (history : List Message) (hfresh : ∀ n, env.fresh n ≠ "") :
    ((env.chat history).toolCalls = [] →
      dispatch env model sid (fuel + 1) k history =
        some (history ++ [stamp model sid (env.chat history)],
              stamp model sid (env.chat history))) ∧
    (∀ call rest, (env.chat history).toolCalls = call :: rest →
      keptId env k call ≠ "" ∧
      (∀ s, call.id = some s → s ≠ "" → keptId env k call = s) ∧
      (call.id = none ∨ call.id = some "" → keptId env k call = env.fresh k) ∧
      dispatch env model sid (fuel + 1) k history =
        dispatch env model sid fuel (k + 1)
          (history ++
            [assistantCallMsg sid { call with id := some (keptId env k call) },
             toolResultMsg sid
               (execTool env call.function.name call.function.arguments)
               (keptId env k call)])) := by
  constructor
  · intro h0
    simp only [dispatch, h0]
  · intro call rest hcall
    refine ⟨?_, ?_, ?_, ?_⟩
    · unfold keptId
      cases hid : call.id with
      | none => exact hfresh k
      | some s =>
          dsimp only
          split_ifs with hs
          · exact hfresh k
          · exact hs
    · intro s hs hne
      simp [keptId, hs, hne]
    · rintro (h | h) <;> simp [keptId, h]
    · simp only [dispatch, hcall]

/-- Claim C1 witness: the §8 weather scenario — the adapter's first reply
carries one tool call with an empty id for get_weather(location: NYC), so
the round synthesizes the generated id, persists the assistant-call and
tool-result messages, and recurses; the second reply has no tool calls and
is returned stamped. -/
theorem dispatch_round_behavior_witness :
    (∀ n, (fun (_ : Nat) => "generated-id") n ≠ "") ∧
    keptId
      { chat := fun h =>
          if h.length == 1 then
            { role := Role.assistant
              toolCalls := [{ id := some ""
                              function := { name := "get_weather"
                                            arguments := [("location", "NYC")] } }] }
          else { role := Role.assistant, content := "Sunny." }
        call_mcp_tool := fun _ _ => Except.ok "72F and sunny"
        fresh := fun _ => "generated-id" } 0
      { id := some ""
        function := { name := "get_weather", arguments := [("location", "NYC")] } }
      = "generated-id" ∧
    dispatch
      { chat := fun h =>
          if h.length == 1 then
            { role := Role.assistant
              toolCalls := [{ id := some ""
                              function := { name := "get_weather"
                                            arguments := [("location", "NYC")] } }] }
          else { role := Role.assistant, content := "Sunny." }
        call_mcp_tool := fun _ _ => Except.ok "72F and sunny"
        fresh := fun _ => "generated-id" }
      { id := "anthropic:m", name := "m", engineId := some 7 } (some 1) 2 0
      [{ role := Role.user, content := "What is the weather in NYC?" }] =
    dispatch
      { chat := fun h =>
          if h.length == 1 then
            { role := Role.assistant
              toolCalls := [{ id := some ""
                              function := { name := "get_weather"
                                            arguments := [("location", "NYC")] } }] }
          else { role := Role.assistant, content := "Sunny." }
        call_mcp_tool := fun _ _ => Except.ok "72F and sunny"
        fresh := fun _ => "generated-id" }
      { id := "anthropic:m", name := "m", engineId := some 7 } (some 1) 1 1
      ([{ role := Role.user, content := "What is the weather in NYC?" }] ++
        [assistantCallMsg (some 1)
          { id := some "generated-id"
            function := { name := "get_weather", arguments := [("location", "NYC")] } },
         toolResultMsg (some 1) "72F and sunny" "generated-id"]) := by
  have hne : ("generated-id" : String) ≠ "" := by decide
  have h := dispatch_round_behavior
    { chat := fun h =>
        if h.length == 1 then
          { role := Role.assistant
            toolCalls := [{ id := some ""
                            function := { name := "get_weather"
                                          arguments := [("location", "NYC")] } }] }
        else { role := Role.assistant, content := "Sunny." }
      call_mcp_tool := fun _ _ => Except.ok "72F and sunny"
      fresh := fun _ => "generated-id" }
    { id := "anthropic:m", name := "m", engineId := some 7 } (some 1) 1 0
    [{ role := Role.user, content := "What is the weather in NYC?" }]
    (fun _ => hne)
  obtain ⟨-, -, hkept, heq⟩ := h.2
    { id := some ""
      function := { name := "get_weather", arguments := [("location", "NYC")] } }
    [] rfl
  exact ⟨fun _ => hne, hkept (Or.inr rfl), heq⟩

/-! ## Claim C2 -/

/-- Claim C2: when the tool-execution collaborator fails on the handled
tool call, the failure text becomes the content of the persisted tool
message — the error is the tool's answer — and the round still recurses
with the updated history rather than aborting; if the next reply is
terminal, the whole dispatch still returns it. -/
theorem dispatch_tool_failure_captured (env : Env) (model : Model)
    (sid : Option Nat) (fuel k : Nat) (history : List Message)
    (call : ToolCall) (rest : List ToolCall) (e : String)
    (hcall : (env.chat history).toolCalls = call :: rest)
    (hfail : env.call_mcp_tool call.function.name call.function.arguments =
      Except.error e) :
    execTool env call.function.name call.function.arguments = e ∧
    (toolResultMsg sid e (keptId env k call)).content = e ∧
    dispatch env model sid (fuel + 1) k history =
      dispatch env model sid fuel (k + 1)
        (history ++
          [assistantCallMsg sid { call with id := some (keptId env k call) },
           toolResultMsg sid e (keptId env k call)]) ∧
    ((env.chat (history ++
          [assistantCallMsg sid { call with id := some (keptId env k call) },
           toolResultMsg sid e (keptId env k call)])).toolCalls = [] →
      (dispatch env model sid (fuel + 1 + 1) k history).isSome = true) := by
  have hexec : execTool env call.function.name call.function.arguments = e := by
    simp [execTool, hfail]
  have hstep : ∀ f, dispatch env model sid (f + 1) k history =
      dispatch env model sid f (k + 1)
        (history ++
          [assistantCallMsg sid { call with id := some (keptId env k call) },
           toolResultMsg sid e (keptId env k call)]) := by
    intro f
    rw [← hexec]
    simp only [dispatch, hcall]
  refine ⟨hexec, rfl, hstep fuel, ?_⟩
  intro hterm
  rw [hstep (fuel + 1)]
  simp only [dispatch, hterm, Option.isSome_some]

/-- Claim C2 witness: a tool server that rejects with
"Tool server unreachable" — the persisted tool message's content is that
error text, and the dispatch still returns the model's next (terminal)
reply. -/
theorem dispatch_tool_failure_captured_witness :
    execTool
      { chat := fun h =>
          if h.length == 1 then
            { role := Role.assistant
              toolCalls := [{ id := some "call-1"
                              function := { name := "get_weather"
                                            arguments := [("location", "NYC")] } }] }
          else { role := Role.assistant, content := "I could not reach the tool." }
        call_mcp_tool := fun _ _ => Except.error "Tool server unreachable"
        fresh := fun _ => "generated-id" }
      "get_weather" [("location", "NYC")] = "Tool server unreachable" ∧
    (dispatch
      { chat := fun h =>
          if h.length == 1 then
            { role := Role.assistant
              toolCalls := [{ id := some "call-1"
                              function := { name := "get_weather"
                                            arguments := [("location", "NYC")] } }] }
          else { role := Role.assistant, content := "I could not reach the tool." }
        call_mcp_tool := fun _ _ => Except.error "Tool server unreachable"
        fresh := fun _ => "generated-id" }
      { id := "anthropic:m", name := "m", engineId := some 7 } (some 1) 2 0
      [{ role := Role.user, content := "What is the weather in NYC?" }]).isSome
      = true := by
  have h := dispatch_tool_failure_captured
    { chat := fun h =>
        if h.length == 1 then
          { role := Role.assistant
            toolCalls := [{ id := some "call-1"
                            function := { name := "get_weather"
                                          arguments := [("location", "NYC")] } }] }
      else { role := Role.assistant, content := "I could not reach the tool." }
      call_mcp_tool := fun _ _ => Except.error "Tool server unreachable"
      fresh := fun _ => "generated-id" }
    { id := "anthropic:m", name := "m", engineId := some 7 } (some 1) 0 0
    [{ role := Role.user, content := "What is the weather in NYC?" }]
    { id := some "call-1"
      function := { name := "get_weather", arguments := [("location", "NYC")] } }
    [] "Tool server unreachable" rfl rfl
  exact ⟨h.1, h.2.2.2 rfl⟩

end Tome
